import Mathlib

/-!
Shallow embedding of the frame-sampling and detection-overlay pipeline of
the drone-arm dashboard.  Two variants exist in the source:

* the capture variant (src/unnamed/part_000): frames come from a
  getUserMedia camera stream, drawn by a requestAnimationFrame loop
  (`drawFrame`), sampled with a stride of 5 frames and a 500 ms minimum
  gap before `processFrame` is invoked;
* the remote-stream variant (src/dashboard/src/components/VideoFeed.tsx):
  frames come from a continuously refreshing img element, processed by a
  fixed `setInterval(processFrame, 100)` timer.

Both variants share the same `processFrame` body from the `fetch` call
onwards (try / catch / finally).  The cells live in fields of an explicit
state record, and the single-threaded event loop is a fold over an event
list, where each event is one uninterrupted synchronous slice: a timer or
animation-frame tick runs the synchronous prefix of the handler up to the
`fetch` suspension, and a completion event runs the rest of `processFrame`
from the resumption of `await fetch`.

A crucial point of fidelity: in both variants `processFrame` is a
component-body const and the loop that invokes it is created in a
mount-only effect, so the loop forever calls the closure of the FIRST
render.  Inside that closure the useState values `isProcessing` and
`error` are the constants of the first render — permanently false and
null — so the guards at the top of `processFrame` NEVER block; only the
useRef cells (`frameCountRef`, `lastDetectionRef`, `canvasRef`, `imgRef`)
are read fresh.  The useState setters are stable and do update the real
cells (which the state fields track, and which the UI renders), but the
guards do not see those updates.  The tick definitions below therefore
consult only ref-backed data, never `isProcessing` or `error`.

Timestamps are naturals (milliseconds); the DOM refs and the 2d context
are assumed present, as in a mounted component.
-/

/-- A detection entry as received from the inference service:
`\x7b class, confidence, bbox \x7d` (the field `class` is renamed `cls`,
`class` being a keyword). -/
structure Detection where
  cls : String
  confidence : Nat
  bbox : Nat × Nat × Nat × Nat
deriving DecidableEq

/-- A parsed JSON response body.  `detail` is the optional error field read
from `errorData.detail` on non-2xx responses (`none` models an absent
field); `detections` is the list read from `result.detections` on 2xx
responses. -/
structure JsonBody where
  detail : Option String
  detections : List Detection
deriving DecidableEq

/-- Outcome of `await fetch(...)` together with the subsequent
`await response.json()`: either the fetch itself rejects (network or
transport failure, carrying the message of the thrown Error), or a
response arrives with an HTTP `ok` flag and a body that `json()` either
decodes (`Except.ok`) or fails to decode (`Except.error msg`, where `msg`
is the message of the decoder exception, e.g. a SyntaxError). -/
inductive ServerResponse where
  | netFail (msg : String)
  | resp (ok : Bool) (body : Except String JsonBody)

/-- A response is a success when it is 2xx and its body decodes. -/
def ServerResponse.isSuccess : ServerResponse → Bool
  | .resp true (.ok _) => true
  | _ => false

/-- The response-handling part of `processFrame`, shared verbatim by both
variants: the code from `if (!response.ok)` through the catch clause,
acting on the `detections` and `error` state cells.  Returns the new
(detections, error) pair.  Source behaviour:
* non-2xx with a decodable body throws
  `new Error(errorData.detail || "Detection failed")`, and the catch
  clause stores `error.message`; the JS `||` falls through on an absent,
  null or empty `detail`;
* a body that fails to decode makes `response.json()` reject with a
  SyntaxError, whose message reaches the catch clause unchanged;
* a rejected fetch likewise surfaces the message of the thrown Error;
* on success `setDetections(result.detections)` runs and `error` is left
  untouched.
The `finally` clause (`setIsProcessing(false)`) is applied by the caller. -/
def processFrameResponse (dets : List Detection) (err : Option String) :
    ServerResponse → List Detection × Option String
  | .netFail msg => (dets, some msg)
  | .resp ok body =>
    if ok then
      match body with
      | .ok j => (j.detections, err)
      | .error m => (dets, some m)
    else
      match body with
      | .ok j =>
        (dets, some (match j.detail with
          | some d => if d = "" then "Detection failed" else d
          | none => "Detection failed"))
      | .error m => (dets, some m)

/-- State of the capture variant (src/unnamed/part_000): the useState and
useRef cells, plus ghost fields tracking outstanding requests and the
timestamps at which requests were issued (most recent first). -/
structure CaptureState where
  frameCount : Nat
  lastDetection : Nat
  isProcessing : Bool
  detections : List Detection
  error : Option String
  pendingRaf : Bool
  outstanding : Nat
  maxOut : Nat
  issueTimes : List Nat
deriving DecidableEq

/-- Initial capture-variant state: counters at 0, no detections, no error,
the first `drawFrame` call pending (it is invoked directly at setup). -/
def initCapture : CaptureState :=
  { frameCount := 0, lastDetection := 0, isProcessing := false,
    detections := [], error := none, pendingRaf := true,
    outstanding := 0, maxOut := 0, issueTimes := [] }

/-- Result of one `drawFrame` invocation: the new state, plus whether the
frame was drawn, whether `processFrame` was invoked, whether an inference
request was actually dispatched, and whether the loop re-scheduled itself
via requestAnimationFrame.  Because the `!canvasRef.current ||
isProcessing` guard inside `processFrame` reads the stale first-render
`isProcessing` (always false) and the canvas ref is present, every
invocation dispatches: `invoked` and `issued` coincide. -/
structure CaptureTickResult where
  state : CaptureState
  drew : Bool
  invoked : Bool
  issued : Bool
  rescheduled : Bool
deriving DecidableEq

/-- One invocation of `drawFrame` in the capture variant.  `ready` models
`video.readyState === video.HAVE_ENOUGH_DATA`; `now` is `Date.now()` for
this tick (the source re-reads the clock inside `processFrame`, in the
same synchronous slice, so the two reads coincide in the model).  When
ready, the source draws the frame, increments `frameCountRef`, and invokes
`processFrame` iff `frameCountRef.current % 5 === 0` and
`now - lastDetectionRef.current > 500` (both refs, read fresh).
`processFrame` is the first-render closure, whose stale `isProcessing`
guard is permanently false, so every invocation dispatches a request —
even while another is in flight — setting the real `isProcessing` cell
to true and recording `lastDetectionRef.current := now` synchronously
before the fetch.  The loop re-schedules itself only inside the ready
branch; when not ready, nothing is drawn and no new callback is
scheduled. -/
def drawFrame (s : CaptureState) (now : Nat) (ready : Bool) :
    CaptureTickResult :=
  if ready then
    if (s.frameCount + 1) % 5 = 0 ∧ 500 < now - s.lastDetection then
      { state := { s with
          frameCount := s.frameCount + 1
          isProcessing := true
          lastDetection := now
          outstanding := s.outstanding + 1
          maxOut := max s.maxOut (s.outstanding + 1)
          issueTimes := now :: s.issueTimes
          pendingRaf := true },
        drew := true, invoked := true, issued := true, rescheduled := true }
    else
      { state := { s with frameCount := s.frameCount + 1, pendingRaf := true },
        drew := true, invoked := false, issued := false, rescheduled := true }
  else
    { state := { s with pendingRaf := false }, drew := false, invoked := false,
      issued := false, rescheduled := false }

/-- Resumption of one `processFrame` call in the capture variant after
`await fetch`: the remainder of the try/catch and the `finally` clause,
which always runs `setIsProcessing(false)`.  Such an event occurs once
per issued request (only while at least one request is outstanding); the
definition applies the continuation unconditionally, as the source does. -/
def captureComplete (s : CaptureState) (r : ServerResponse) : CaptureState :=
  { s with
    detections := (processFrameResponse s.detections s.error r).1
    error := (processFrameResponse s.detections s.error r).2
    isProcessing := false
    outstanding := s.outstanding - 1 }

/-- Events of the capture-variant event loop: an animation-frame tick, or
the completion of the in-flight inference request. -/
inductive CEvent where
  | tick (now : Nat) (ready : Bool)
  | complete (r : ServerResponse)

/-- One event-loop step of the capture variant. -/
def captureStep (s : CaptureState) : CEvent → CaptureState
  | .tick now ready => (drawFrame s now ready).state
  | .complete r => captureComplete s r

/-- Run of the capture variant from the initial state. -/
def captureRun (es : List CEvent) : CaptureState :=
  es.foldl captureStep initCapture

/-- State of the remote-stream variant (VideoFeed.tsx): the useState
cells, the canvas dimensions, and ghost request counters. -/
structure RemoteState where
  isProcessing : Bool
  detections : List Detection
  error : Option String
  canvasW : Nat
  canvasH : Nat
  outstanding : Nat
  maxOut : Nat
deriving DecidableEq

/-- Result of one remote-variant `processFrame` invocation: the new state,
whether a request was dispatched, and whether the canvas width/height
assignment was executed. -/
structure RemoteTickResult where
  state : RemoteState
  issued : Bool
  wroteCanvas : Bool
deriving DecidableEq

/-- One invocation of the remote-variant `processFrame`, as called by
`setInterval(processFrame, 100)` on every 100 ms timer tick: the
synchronous prefix up to the `fetch` suspension.  `natW` and `natH` are
the current `naturalWidth` and `naturalHeight` of the img element (0 when
not loaded; the source tests them for JS truthiness).  The interval calls
the first-render closure, whose guard reads the stale first-render
`isProcessing` and `error` — permanently false and null — and the refs
are present, so the guard never blocks: the only effective condition is
nonzero natural dimensions.  When they hold, the canvas dimensions are
assigned from them on every pass, the frame is drawn and encoded, and the
request is dispatched (the real `isProcessing` cell is set true) — even
while another request is in flight or an error is displayed.  When the
dimensions are not ready, the body returns early and the `finally` clause
runs `setIsProcessing(false)` on the real cell. -/
def processFrameRemote (s : RemoteState) (natW natH : Nat) :
    RemoteTickResult :=
  if natW ≠ 0 ∧ natH ≠ 0 then
    { state := { s with
        isProcessing := true
        canvasW := natW
        canvasH := natH
        outstanding := s.outstanding + 1
        maxOut := max s.maxOut (s.outstanding + 1) },
      issued := true, wroteCanvas := true }
  else
    { state := { s with isProcessing := false }, issued := false,
      wroteCanvas := false }

/-- Resumption of one remote-variant `processFrame` call after `await
fetch`: the remainder of the try/catch and the `finally` clause, applied
unconditionally, once per issued request. -/
def remoteComplete (s : RemoteState) (r : ServerResponse) : RemoteState :=
  { s with
    detections := (processFrameResponse s.detections s.error r).1
    error := (processFrameResponse s.detections s.error r).2
    isProcessing := false
    outstanding := s.outstanding - 1 }

/-- Resources held by the capture variant that teardown is meant to
release. -/
structure CaptureResources where
  pendingRaf : Bool
  tracksActive : Bool
  metadataListener : Bool
deriving DecidableEq

/-- The cleanup closure that `setupStream` returns: it removes the
loadedmetadata listener, cancels the pending animation frame, and stops
all tracks.  In the source this closure is the resolved value of the
`setupStream()` promise; the effect discards that promise, so this closure
is never invoked. -/
def setupStreamCleanup (_ : CaptureResources) : CaptureResources :=
  { pendingRaf := false, tracksActive := false, metadataListener := false }

/-- The cleanup the capture-variant effect actually registers (and which
therefore runs at unmount): it only stops the tracks held in `streamRef`. -/
def captureEffectCleanup (s : CaptureResources) : CaptureResources :=
  { s with tracksActive := false }

/-- The remote-variant effect cleanup: `clearInterval(interval)`; the
argument and result model whether the fixed-period timer is active. -/
def remoteEffectCleanup (_timerActive : Bool) : Bool := false

/-- Fold invariant: a property preserved by every step holds after any run. -/
theorem foldl_inv {S E : Type} (step : S → E → S) (P : S → Prop)
    (hs : ∀ s e, P s → P (step s e)) :
    ∀ (es : List E) (s : S), P s → P (es.foldl step s) := by
  intro es
  induction es with
  | nil => intro s h; exact h
  | cons e es ih => intro s h; exact ih _ (hs _ _ h)

/-- Ghost invariant for the inter-request gap, capture variant: issue
timestamps (most recent first) are pairwise more than 500 ms apart, and
every recorded issue time is at most `lastDetection` (which is written at
each issue and nowhere else). -/
def gapInv (s : CaptureState) : Prop :=
  List.Chain' (fun a b => b + 500 < a) s.issueTimes ∧
  ∀ t ∈ s.issueTimes, t ≤ s.lastDetection

theorem captureStep_gapInv (s : CaptureState) (e : CEvent) (h : gapInv s) :
    gapInv (captureStep s e) := by
  obtain ⟨h1, h2⟩ := h
  cases e with
  | tick now ready =>
    simp only [captureStep, drawFrame]
    split_ifs with hr hc
    · obtain ⟨hc1, hc2⟩ := hc
      constructor
      · rw [List.chain'_cons']
        refine ⟨fun b hb => ?_, h1⟩
        have hb' : b ∈ s.issueTimes := List.mem_of_mem_head? hb
        have := h2 b hb'
        omega
      · intro t ht
        show t ≤ now
        rcases List.mem_cons.mp ht with rfl | ht'
        · exact le_refl t
        · have := h2 t ht'
          omega
    · exact ⟨h1, h2⟩
    · exact ⟨h1, h2⟩
  | complete r => exact ⟨h1, h2⟩

/-- C2: for every issued request, `isProcessing` is true at the end of the
issuing slice (set synchronously before the fetch begins), and every
completion — success, non-2xx response, transport failure, or
response-decode failure — resets it to false exactly once via the
`finally` clause, in both variants. -/
theorem C2_in_flight_lifecycle :
    (∀ (s : CaptureState) (now : Nat) (ready : Bool),
        (drawFrame s now ready).issued = true →
          (drawFrame s now ready).state.isProcessing = true) ∧
    (∀ (s : RemoteState) (w h : Nat),
        (processFrameRemote s w h).issued = true →
          (processFrameRemote s w h).state.isProcessing = true) ∧
    (∀ (s : CaptureState) (r : ServerResponse),
        s.isProcessing = true → (captureComplete s r).isProcessing = false) ∧
    (∀ (s : RemoteState) (r : ServerResponse),
        s.isProcessing = true → (remoteComplete s r).isProcessing = false) := by
  refine ⟨?_, ?_, ?_, ?_⟩
  · intro s now ready h
    unfold drawFrame at h ⊢
    split_ifs at h ⊢ with hr hc; simp_all
  · intro s w h hh
    unfold processFrameRemote at hh ⊢
    split_ifs at hh ⊢ with hd; simp_all
  · intro s r _
    rfl
  · intro s r _
    rfl

/-- Witness for C2: a concrete completion (a transport error) of an
in-flight request resets `isProcessing`. -/
theorem C2_in_flight_lifecycle_witness :
    (captureComplete { initCapture with isProcessing := true }
      (ServerResponse.netFail "Failed to fetch")).isProcessing = false :=
  C2_in_flight_lifecycle.2.2.1 { initCapture with isProcessing := true }
    (ServerResponse.netFail "Failed to fetch") rfl

/-- Any non-success outcome leaves the detections component of the shared
response handler unchanged. -/
theorem processFrameResponse_failure_fst (dets : List Detection)
    (err : Option String) (r : ServerResponse) (h : r.isSuccess = false) :
    (processFrameResponse dets err r).1 = dets := by
  cases r with
  | netFail m => rfl
  | resp ok body =>
    cases ok <;> cases body <;>
      simp_all [ServerResponse.isSuccess, processFrameResponse]

/-- C5: a failed inference request — non-2xx status, transport error, or
response-decode failure — leaves the detections from the prior successful
request unchanged in both variants; failure never clears the previously
received detection set. -/
theorem C5_failure_preserves_detections :
    ∀ r : ServerResponse, r.isSuccess = false →
      (∀ s : CaptureState, (captureComplete s r).detections = s.detections) ∧
      (∀ s : RemoteState, (remoteComplete s r).detections = s.detections) := by
  intro r hr
  constructor
  · intro s
    unfold captureComplete
    exact processFrameResponse_failure_fst s.detections s.error r hr
  · intro s
    unfold remoteComplete
    exact processFrameResponse_failure_fst s.detections s.error r hr

/-- Witness for C5: a concrete non-2xx response leaves a concrete
detection set untouched. -/
theorem C5_failure_preserves_detections_witness :
    (captureComplete
      { initCapture with
        isProcessing := true
        detections := [⟨"person", 87, (10, 20, 100, 200)⟩] }
      (ServerResponse.resp false (Except.ok ⟨some "boom", []⟩))).detections =
      [⟨"person", 87, (10, 20, 100, 200)⟩] :=
  (C5_failure_preserves_detections
    (ServerResponse.resp false (Except.ok ⟨some "boom", []⟩)) (by decide)).1 _

/-- C10: in the capture variant, the issue times of any two consecutive
inference requests are always more than 500 ms apart: the sampling gate
requires `now - lastDetection > 500`, and `lastDetection` is recorded
synchronously at issue time and kept regardless of whether the request
later succeeds or fails, so a failed request also delays the next attempt
by the minimum gap. -/
theorem C10_issue_gap (es : List CEvent) :
    List.Chain' (fun a b => b + 500 < a) (captureRun es).issueTimes :=
  (foldl_inv captureStep gapInv captureStep_gapInv es initCapture
    ⟨List.chain'_nil, fun t ht => absurd ht (List.not_mem_nil t)⟩).1

/-- C4, evaluated at the failing input: teardown of the capture variant
while an animation-frame callback is pending and the stream tracks are
live.  The cleanup the effect actually registers stops the tracks but
leaves the pending callback scheduled; the closure that would cancel it
(returned by the async `setupStream`, shown alongside) is discarded by the
source and never runs.  The remote-variant cleanup does cancel its
fixed-period timer. -/
theorem C4_teardown_eval :
    (captureEffectCleanup ⟨true, true, true⟩).pendingRaf = true ∧
    (captureEffectCleanup ⟨true, true, true⟩).tracksActive = false ∧
    (setupStreamCleanup ⟨true, true, true⟩).pendingRaf = false ∧
    remoteEffectCleanup true = false := by
  decide

/-- C6 counterexample: a non-2xx response whose body fails to decode makes
`response.json()` throw inside the try block; the catch clause surfaces
the decoder message verbatim, not the generic "Detection failed" message
the claim requires for an unparsable body. -/
theorem C6_counterexample :
    (processFrameResponse [] none
        (ServerResponse.resp false
          (Except.error "Unexpected end of JSON input"))).2 =
      some "Unexpected end of JSON input" ∧
    ("Unexpected end of JSON input" : String) ≠ "Detection failed" := by
  exact ⟨rfl, by decide⟩

/-- C6 amended: on a non-2xx response the surfaced message is `detail`
verbatim when the body decodes and `detail` is present and non-empty;
"Detection failed" when the body decodes but `detail` is absent or empty
(JS falsiness); and the decode-error message itself when the body is
unparsable. -/
theorem C6_error_message :
    (∀ (dets ds : List Detection) (err : Option String) (d : String),
        d ≠ "" →
        (processFrameResponse dets err
          (ServerResponse.resp false (Except.ok ⟨some d, ds⟩))).2 = some d) ∧
    (∀ (dets ds : List Detection) (err : Option String),
        (processFrameResponse dets err
          (ServerResponse.resp false (Except.ok ⟨none, ds⟩))).2 =
          some "Detection failed") ∧
    (∀ (dets ds : List Detection) (err : Option String),
        (processFrameResponse dets err
          (ServerResponse.resp false (Except.ok ⟨some "", ds⟩))).2 =
          some "Detection failed") ∧
    (∀ (dets : List Detection) (err : Option String) (m : String),
        (processFrameResponse dets err
          (ServerResponse.resp false (Except.error m))).2 = some m) := by
  refine ⟨?_, ?_, ?_, ?_⟩
  · intro dets ds err d hd
    simp [processFrameResponse, hd]
  · intro dets ds err
    rfl
  · intro dets ds err
    rfl
  · intro dets err m
    rfl

/-- Witness for C6 amended: a concrete non-empty `detail` is surfaced
verbatim. -/
theorem C6_error_message_witness :
    (processFrameResponse [] none
      (ServerResponse.resp false
        (Except.ok ⟨some "GPU unavailable", []⟩))).2 =
      some "GPU unavailable" :=
  C6_error_message.1 [] [] none "GPU unavailable" (by decide)

/-- C7 counterexample: on a tick where the video has not buffered enough
data, `drawFrame` neither draws a frame nor re-schedules itself — the loop
does not re-schedule unconditionally on every tick. -/
theorem C7_counterexample :
    (drawFrame initCapture 1000 false).drew = false ∧
    (drawFrame initCapture 1000 false).rescheduled = false := by
  decide

/-- C7 amended: the display loop never consults the in-flight flag: on any
tick with enough data it draws a frame and re-schedules itself, whatever
the rest of the state (in particular while a request is in flight), and
the tick leaves the detection set unchanged, so the draw uses the
last-known detections; on a tick without enough data it neither draws nor
re-schedules. -/
theorem C7_draw_loop (s : CaptureState) (now : Nat) :
    (drawFrame s now true).drew = true ∧
    (drawFrame s now true).rescheduled = true ∧
    (drawFrame s now true).state.detections = s.detections ∧
    (drawFrame s now false).drew = false ∧
    (drawFrame s now false).rescheduled = false := by
  refine ⟨?_, ?_, ?_, rfl, rfl⟩ <;>
    (unfold drawFrame; split_ifs <;> simp_all)

